import Mathlib

/-!
# Verification of the Covert update-orchestration engine

A shallow embedding, in Lean 4, of the core update-orchestration code of the
`covert` repository (`covert/utils.py` and `covert/core.py`), together with
theorems settling the specification claims about it.

Modelling conventions:
* Python exceptions are represented with `Except String`; a caught exception
  corresponds to matching on the `.error` case.
* Version strings are represented by their parsed form (`PyVersion`), the
  value produced by the external `packaging.version.Version` parser; the
  standard PEP 440 ordering of that external library is modelled below.
* The external collaborators (pip install/uninstall, test runner, backup,
  security probes) are oracles collected in an `Env` record; every call the
  orchestrator makes to the install / uninstall / test-run collaborators is
  recorded in an explicit `CollabCall` trace.
* Wall-clock timestamps (`datetime.now()`) are outside the model and the
  corresponding record fields are omitted.
-/

/-! ## PEP 440 versions (external `packaging.version` collaborator)

Modelled from the spec: the repository delegates version parsing and ordering
to the external `packaging` library ("both version strings must parse under
the semantic-version-like release scheme (an ordered tuple of non-negative
integers, optionally followed by pre-release/dev/post/local qualifiers)",
"standard version ordering").  `PyVersion` is the parsed value: epoch, the
release tuple, and the optional pre-release / post-release / dev / local
qualifiers. -/
structure PyVersion where
  epoch : Nat := 0
  release : List Nat
  /-- pre-release qualifier: (phase, number) with phase 0 = a, 1 = b, 2 = rc. -/
  pre : Option (Nat × Nat) := none
  post : Option Nat := none
  dev : Option Nat := none
  localSeg : List Nat := []
deriving DecidableEq

/-- Python tuple comparison on lists of naturals (lexicographic; a strict
prefix is smaller). -/
def cmpNatList : List Nat → List Nat → Ordering
  | [], [] => .eq
  | [], _ :: _ => .lt
  | _ :: _, [] => .gt
  | x :: xs, y :: ys =>
    match compare x y with
    | .eq => cmpNatList xs ys
    | o => o

/-- Drop trailing zeros of a release tuple (PEP 440 compares releases with
trailing zeros removed). -/
def stripTrailingZeros (l : List Nat) : List Nat :=
  (l.reverse.dropWhile (· == 0)).reverse

/-- Lexicographic comparison of pairs of naturals. -/
def cmpNat2 : Nat × Nat → Nat × Nat → Ordering
  | (a1, a2), (b1, b2) => (compare a1 b1).then (compare a2 b2)

/-- Lexicographic comparison of triples of naturals. -/
def cmpNat3 : Nat × Nat × Nat → Nat × Nat × Nat → Ordering
  | (a1, a2, a3), (b1, b2, b3) =>
    (compare a1 b1).then ((compare a2 b2).then (compare a3 b3))

/-- PEP 440 pre-release comparison key: a version with a dev segment and no
pre/post qualifier sorts before everything (tag 0), an actual pre-release is
tag 1, and the absence of a pre-release sorts after (tag 2). -/
def preKey (v : PyVersion) : Nat × Nat × Nat :=
  match v.pre, v.post, v.dev with
  | none, none, some _ => (0, 0, 0)
  | none, _, _ => (2, 0, 0)
  | some (phase, n), _, _ => (1, phase, n)

/-- PEP 440 post-release key: absent post sorts first. -/
def postKey (v : PyVersion) : Nat × Nat :=
  match v.post with
  | none => (0, 0)
  | some n => (1, n)

/-- PEP 440 dev key: absent dev sorts last. -/
def devKey (v : PyVersion) : Nat × Nat :=
  match v.dev with
  | none => (1, 0)
  | some n => (0, n)

/-- PEP 440 local version key: absent local segment sorts first. -/
def localKey (a b : PyVersion) : Ordering :=
  match a.localSeg, b.localSeg with
  | [], [] => .eq
  | [], _ :: _ => .lt
  | _ :: _, [] => .gt
  | x, y => cmpNatList x y

/-- Comparison of two parsed versions under the standard PEP 440 ordering
of the external `packaging` library: compare epoch, then the release tuple
with trailing zeros removed, then the pre / post / dev / local keys. -/
def pyVersionCompare (a b : PyVersion) : Ordering :=
  (compare a.epoch b.epoch).then
    ((cmpNatList (stripTrailingZeros a.release) (stripTrailingZeros b.release)).then
      ((cmpNat3 (preKey a) (preKey b)).then
        ((cmpNat2 (postKey a) (postKey b)).then
          ((cmpNat2 (devKey a) (devKey b)).then (localKey a b)))))

/-- `a <= b` under the standard version ordering. -/
def pyVersionLe (a b : PyVersion) : Bool :=
  match pyVersionCompare a b with
  | .gt => false
  | _ => true

/-! ## `covert/utils.py`: `is_breaking_change` -/

/-- Python tuple indexing: `t[i]` raises `IndexError("tuple index out of
range")` when out of bounds. -/
def pyIndex (l : List Nat) (i : Nat) : Except String Nat :=
  match l[i]? with
  | some x => .ok x
  | none => .error "tuple index out of range"

/-- `covert/utils.py`, `is_breaking_change(current_version, new_version,
version_policy)`.  Version strings arrive here already parsed (the Python
code parses them with `parse_version` at the top of the function; parse
failures raise before any of the logic below runs and are not represented by
a `PyVersion` value).  The body mirrors the source line by line, including
the short-circuit evaluation of `current_parts[0] == new_parts[0] and
current_parts[1] == new_parts[1]` under the `"patch"` policy, whose index
accesses can raise `IndexError`. -/
def is_breaking_change (current new : PyVersion) (version_policy : String) :
    Except String Bool :=
  -- if new <= current: return False
  if pyVersionLe new current then .ok false
  -- "latest" policy allows any update
  else if version_policy == "latest" then .ok false
  else
    -- pad the shorter release tuple with zeros
    let max_len := max current.release.length new.release.length
    let current_parts := current.release ++ List.replicate (max_len - current.release.length) 0
    let new_parts := new.release ++ List.replicate (max_len - new.release.length) 0
    if version_policy == "patch" then
      -- return not (current_parts[0] == new_parts[0] and current_parts[1] == new_parts[1])
      match pyIndex current_parts 0 with
      | .error e => .error e
      | .ok c0 =>
        match pyIndex new_parts 0 with
        | .error e => .error e
        | .ok n0 =>
          if c0 == n0 then
            match pyIndex current_parts 1 with
            | .error e => .error e
            | .ok c1 =>
              match pyIndex new_parts 1 with
              | .error e => .error e
              | .ok n1 => .ok (!(c1 == n1))
          else .ok true
    else if version_policy == "minor" then
      -- return current_parts[0] != new_parts[0]
      match pyIndex current_parts 0 with
      | .error e => .error e
      | .ok c0 =>
        match pyIndex new_parts 0 with
        | .error e => .error e
        | .ok n0 => .ok (c0 != n0)
    else if version_policy == "safe" then
      -- "safe" is the same as "minor"
      match pyIndex current_parts 0 with
      | .error e => .error e
      | .ok c0 =>
        match pyIndex new_parts 0 with
        | .error e => .error e
        | .ok n0 => .ok (c0 != n0)
    else
      -- unknown policy: conservative, treat as breaking
      .ok true

deriving instance DecidableEq for Except

/-! ## `covert/core.py`: data model -/

/-- `covert/core.py`, `class UpdateStatus(Enum)`. -/
inductive UpdateStatus where
  | UPDATED
  | ROLLED_BACK
  | FAILED_INSTALL
  | CRITICAL_FAILURE
  | SKIPPED
  | PENDING
deriving DecidableEq

/-- The `.value` string of each `UpdateStatus` member. -/
def UpdateStatus.value : UpdateStatus → String
  | .UPDATED => "updated"
  | .ROLLED_BACK => "rolled_back"
  | .FAILED_INSTALL => "failed_install"
  | .CRITICAL_FAILURE => "critical_failure"
  | .SKIPPED => "skipped"
  | .PENDING => "pending"

/-- Iteration order of the `UpdateStatus` enum (declaration order). -/
def UpdateStatus.members : List UpdateStatus :=
  [.UPDATED, .ROLLED_BACK, .FAILED_INSTALL, .CRITICAL_FAILURE, .SKIPPED, .PENDING]

/-- `covert/core.py`, `@dataclass class PackageInfo`.  Version strings are
represented by their parsed `PyVersion` values. -/
structure PackageInfo where
  name : String
  current_version : PyVersion
  latest_version : PyVersion
  package_type : String := "regular"
deriving DecidableEq

/-- `covert/tester.py`, `@dataclass class TestResult` (the test-runner
collaborator's result).  The float `duration` field is unused by the
orchestration core and omitted. -/
structure TestResult where
  success : Bool
  exit_code : Int := 0
  output : String := ""
  passed : Nat := 0
  failed : Nat := 0
  skipped : Nat := 0
  total : Nat := 0
deriving DecidableEq

/-- `covert/core.py`, `@dataclass class UpdateResult`.  The wall-clock
`timestamp` field is outside the model and omitted. -/
structure UpdateResult where
  package : PackageInfo
  status : UpdateStatus
  error_message : Option String := none
  test_output : Option String := none
  test_passed : Bool := false
deriving DecidableEq

/-- `covert/core.py`, `@dataclass class UpdateSession`.  The wall-clock
`start_time`/`end_time` fields are outside the model and omitted. -/
structure UpdateSession where
  backup_file : Option String := none
  results : List UpdateResult := []
  pre_test_passed : Bool := false
  dry_run : Bool := false

/-- `UpdateSession.summary`: the Python property builds a dict with one
zero-initialised key per `UpdateStatus` value and increments the key
`result.status.value` for every result.  A dict whose lookups fall back to
`.get(key, 0)` is represented as a total function `String → Nat` that is `0`
outside the incremented keys, which coincides with the dict on every key the
source ever reads. -/
def UpdateSession.summary (s : UpdateSession) : String → Nat :=
  s.results.foldl
    (fun stats r => fun k => if k == r.status.value then stats k + 1 else stats k)
    (fun _ => 0)

/-- `UpdateSession.success`: `self.summary.get("critical_failure", 0) == 0`. -/
def UpdateSession.success (s : UpdateSession) : Bool :=
  s.summary "critical_failure" == 0

/-- `UpdateSession.updated_count`: `self.summary.get("updated", 0)`. -/
def UpdateSession.updated_count (s : UpdateSession) : Nat :=
  s.summary "updated"

/-! ## `covert/core.py`: collaborators and the per-package worker -/

/-- Outdated-package entry as returned by the package-manager collaborator
(`get_outdated_packages`): the Python code reads the keys `"name"`,
`"version"`, `"latest_version"` and `"package_type"` (the last defaulting to
`"regular"`). -/
structure PkgData where
  name : String
  version : PyVersion
  latest_version : PyVersion
  package_type : String := "regular"
deriving DecidableEq

/-- `PackageInfo(...)` construction from an outdated-package entry, as done
in `run_update_session` and in the parallel `update_worker`. -/
def toPackageInfo (pkg : PkgData) : PackageInfo :=
  { name := pkg.name
    current_version := pkg.version
    latest_version := pkg.latest_version
    package_type := pkg.package_type }

/-- One recorded call to an install / uninstall / test-run collaborator. -/
inductive CollabCall where
  | install (name : String) (version : PyVersion) (verify_hash : Bool)
  | uninstall (name : String)
  | run_tests
deriving DecidableEq

/-- `true` exactly on test-run collaborator calls. -/
def CollabCall.isRunTests : CollabCall → Bool
  | .run_tests => true
  | _ => false

/-- The external collaborators of the orchestration core, as oracles.
`install name version verify_hash` and `uninstall name` return `.error msg`
when the corresponding pip call raises; `run_tests k` is the outcome of the
`k`-th test-runner invocation of the run (`.error` models `TestError`);
`create_backup` and `outdated` are the backup and `get_outdated_packages`
collaborators; `in_virtualenv` and `elevated_privileges` are the security
probes. -/
structure Env where
  install : String → PyVersion → Bool → Except String Unit
  uninstall : String → Except String Unit
  run_tests : Nat → Except String TestResult
  create_backup : Except String String
  outdated : Except String (List PkgData)
  in_virtualenv : Bool
  elevated_privileges : Bool

/-- Configuration surface consumed by the core (`covert/config.py`). -/
structure TestingConfig where
  enabled : Bool := true
deriving DecidableEq

/-- `covert/config.py`, `UpdatesConfig` (fields consumed by the core). -/
structure UpdatesConfig where
  max_parallel : Nat := 3
  version_policy : String := "safe"
  ignore_packages : List String := []
  allow_only_packages : Option (List String) := none
deriving DecidableEq

/-- `covert/config.py`, `SecurityConfig` (fields consumed by the core;
`verify_hashes` is read with `getattr(config.security, 'verify_hashes',
False)`). -/
structure SecurityConfig where
  require_virtualenv : Bool := true
  verify_hashes : Bool := false
deriving DecidableEq

/-- `covert/config.py`, `Config` (sections consumed by the core). -/
structure Config where
  testing : TestingConfig := {}
  updates : UpdatesConfig := {}
  security : SecurityConfig := {}
deriving DecidableEq

/-- `covert/core.py`, `_update_package(package, config, dry_run, no_tests)`.
The Python function initialises an `UpdateResult` with status `PENDING` and
overwrites the status on the path taken; the whole body sits in a
`try/except Exception` whose handler sets `FAILED_INSTALL` and records the
exception message.  `tIdx` is the index of the test-runner invocation this
worker would consume (workers call `run_tests` at most once).  Returns the
result together with the trace of collaborator calls made. -/
def _update_package (env : Env) (tIdx : Nat) (package : PackageInfo)
    (config : Config) (dry_run : Bool) (no_tests : Bool) :
    UpdateResult × List CollabCall :=
  let result : UpdateResult := { package := package, status := .PENDING }
  -- check version policy (a ValidationError / IndexError raised here is
  -- caught by the outer `except Exception` handler)
  match is_breaking_change package.current_version package.latest_version
      config.updates.version_policy with
  | .error e =>
    ({ result with status := .FAILED_INSTALL, error_message := some e }, [])
  | .ok true =>
    ({ result with status := .SKIPPED }, [])
  | .ok false =>
    -- dry run mode
    if dry_run then
      ({ result with status := .UPDATED }, [])
    else
      -- store current version for rollback
      let old_version := package.current_version
      let verify_hash := config.security.verify_hashes
      -- install new version
      match env.install package.name package.latest_version verify_hash with
      | .error e =>
        ({ result with status := .FAILED_INSTALL, error_message := some e },
         [.install package.name package.latest_version verify_hash])
      | .ok _ =>
        let calls := [CollabCall.install package.name package.latest_version verify_hash]
        -- run tests if enabled
        if !no_tests && config.testing.enabled then
          match env.run_tests tIdx with
          | .error e =>
            -- TestError from the runner is caught by the outer handler
            ({ result with status := .FAILED_INSTALL, error_message := some e },
             calls ++ [.run_tests])
          | .ok test_result =>
            let result := { result with
              test_output := some test_result.output
              test_passed := test_result.success }
            if test_result.success then
              ({ result with status := .UPDATED }, calls ++ [.run_tests])
            else
              -- tests failed: roll back to old_version
              match env.uninstall package.name with
              | .error e =>
                ({ result with status := .CRITICAL_FAILURE, error_message := some e },
                 calls ++ [.run_tests, .uninstall package.name])
              | .ok _ =>
                match env.install package.name old_version false with
                | .error e =>
                  ({ result with status := .CRITICAL_FAILURE, error_message := some e },
                   calls ++ [.run_tests, .uninstall package.name,
                     .install package.name old_version false])
                | .ok _ =>
                  ({ result with status := .ROLLED_BACK },
                   calls ++ [.run_tests, .uninstall package.name,
                     .install package.name old_version false])
        else
          ({ result with status := .UPDATED }, calls)

/-- `covert/core.py`, `_filter_packages(packages, config_ignore,
config_allow, cli_ignore, cli_allow)`: the per-package loop with its four
`continue` gates, written as structural recursion.  Python truthiness of the
lists (`if config_ignore and ...`, `if config_allow:`) is mirrored exactly:
an absent (`none`) or empty list deactivates its gate. -/
def _filter_packages (packages : List PkgData) (config_ignore : List String)
    (config_allow : Option (List String)) (cli_ignore : Option (List String))
    (cli_allow : Option (List String)) : List PkgData :=
  match packages with
  | [] => []
  | pkg :: rest =>
    let next := _filter_packages rest config_ignore config_allow cli_ignore cli_allow
    -- if config_ignore and name in config_ignore: continue
    if !config_ignore.isEmpty && config_ignore.contains pkg.name then next
    -- if cli_ignore and name in cli_ignore: continue
    else if (match cli_ignore with
             | none => false
             | some l => !l.isEmpty && l.contains pkg.name) then next
    -- if config_allow: if name not in config_allow: continue
    else if (match config_allow with
             | none => false
             | some l => !l.isEmpty && !l.contains pkg.name) then next
    -- if cli_allow: if name not in cli_allow: continue
    else if (match cli_allow with
             | none => false
             | some l => !l.isEmpty && !l.contains pkg.name) then next
    else pkg :: next

/-- The sequential branch of step 6 of `run_update_session`: one worker
invocation per package, in list order, threading the index of the next
test-runner invocation. -/
def _update_packages_sequential (env : Env) (tIdx : Nat)
    (packages : List PkgData) (config : Config) (dry_run : Bool)
    (no_tests : Bool) : List UpdateResult × List CollabCall :=
  match packages with
  | [] => ([], [])
  | pkg :: rest =>
    let (result, calls) :=
      _update_package env tIdx (toPackageInfo pkg) config dry_run no_tests
    let (results, more) :=
      _update_packages_sequential env (tIdx + (calls.countP CollabCall.isRunTests))
        rest config dry_run no_tests
    (result :: results, calls ++ more)

/-- `covert/core.py`, `_update_packages_parallel`: results are collected with
`as_completed`, i.e. in an arbitrary completion order; `completed` is the
submitted package list in that order (the theorems hypothesise it is a
permutation of the submitted list).  `crash pkg = some e` models a task whose
`update_worker` raised an exception `e` that escaped the worker's own
handling (e.g. out of the thread machinery itself, before `_update_package`
ran); the `except Exception` branch of the collection loop then synthesises a
`FAILED_INSTALL` result for that package.  Collaborator calls of a crashed
task are outside the model. -/
def _update_packages_parallel (env : Env) (tIdx : Nat)
    (crash : PkgData → Option String) (completed : List PkgData)
    (config : Config) (dry_run : Bool) (no_tests : Bool) :
    List UpdateResult × List CollabCall :=
  match completed with
  | [] => ([], [])
  | pkg :: rest =>
    match crash pkg with
    | some e =>
      let result : UpdateResult :=
        { package := toPackageInfo pkg
          status := .FAILED_INSTALL
          error_message := some e }
      let (results, more) :=
        _update_packages_parallel env tIdx crash rest config dry_run no_tests
      (result :: results, more)
    | none =>
      let (result, calls) :=
        _update_package env tIdx (toPackageInfo pkg) config dry_run no_tests
      let (results, more) :=
        _update_packages_parallel env (tIdx + (calls.countP CollabCall.isRunTests))
          crash rest config dry_run no_tests
      (result :: results, calls ++ more)

/-- The exception kinds that can leave `run_update_session`
(`covert/exceptions.py`): `SecurityError`, `UpdateError` (pre-flight
failure), `TestError` (the test harness itself could not run),
`BackupError` and `PipError`.  The `except (SecurityError, ValidationError,
UpdateError)` clause at the bottom of `run_update_session` only logs and
re-raises, so every one of these propagates to the caller. -/
inductive SessionError where
  | securityError (msg : String)
  | updateError (msg : String)
  | testError (msg : String)
  | backupError (msg : String)
  | pipError (msg : String)
deriving DecidableEq

/-- Scheduling nondeterminism of the parallel branch: `complete` reorders the
submitted list into a completion order, and `crash` marks tasks whose worker
raised an exception that escaped its own handling.  Sequential runs use
neither field. -/
structure Scheduler where
  complete : List PkgData → List PkgData := id
  crash : PkgData → Option String := fun _ => none

/-- Steps 4–7 of `run_update_session` (the part after the security checks
and the pre-flight test): backup, outdated list, filtering, scheduling, and
the returned session.  `calls` is the collaborator-call trace so far and
`tIdx` the index of the next test-runner invocation. -/
def _session_after_preflight (env : Env) (sched : Scheduler) (config : Config)
    (dry_run no_backup no_tests : Bool)
    (ignore_packages allow_only_packages : Option (List String))
    (parallel : Bool) (session : UpdateSession) (calls : List CollabCall)
    (tIdx : Nat) : Except SessionError UpdateSession × List CollabCall :=
  -- Step 4: create backup
  match (if !no_backup && !dry_run then some env.create_backup else none) with
  | some (.error e) => (.error (.backupError e), calls)
  | backupOutcome =>
    let session :=
      match backupOutcome with
      | some (.ok backup_file) => { session with backup_file := some backup_file }
      | _ => session
    -- Step 5: get outdated packages
    match env.outdated with
    | .error e => (.error (.pipError e), calls)
    | .ok outdated_packages =>
      if outdated_packages.isEmpty then
        (.ok session, calls)
      else
        let packages_to_update := _filter_packages outdated_packages
          config.updates.ignore_packages config.updates.allow_only_packages
          ignore_packages allow_only_packages
        if packages_to_update.isEmpty then
          (.ok session, calls)
        else
          -- Step 6: update each package
          let (results, updateCalls) :=
            if parallel then
              _update_packages_parallel env tIdx sched.crash
                (sched.complete packages_to_update) config dry_run no_tests
            else
              _update_packages_sequential env tIdx packages_to_update config
                dry_run no_tests
          (.ok { session with results := session.results ++ results },
           calls ++ updateCalls)

/-- `covert/core.py`, `run_update_session(config, dry_run, no_backup,
no_tests, ignore_packages, allow_only_packages, parallel)`.  Returns the
outcome (the returned session, or the propagated exception) together with
the trace of install / uninstall / test-run collaborator calls made during
the run.  The test-runner invocation index 0 is the pre-flight run when it
happens; worker invocations consume the subsequent indices. -/
def run_update_session (env : Env) (sched : Scheduler) (config : Config)
    (dry_run : Bool := false) (no_backup : Bool := false)
    (no_tests : Bool := false) (ignore_packages : Option (List String) := none)
    (allow_only_packages : Option (List String) := none)
    (parallel : Bool := false) :
    Except SessionError UpdateSession × List CollabCall :=
  let session : UpdateSession := { dry_run := dry_run }
  -- Step 1: check virtual environment
  if config.security.require_virtualenv && !env.in_virtualenv then
    (.error (.securityError ("Virtual environment is required. " ++
      "Please activate a virtual environment before running Covert.")), [])
  -- Step 2: check for elevated privileges
  else if env.elevated_privileges then
    (.error (.securityError ("Covert cannot run with elevated privileges (root/admin). " ++
      "Please run as a regular user within a virtual environment.")), [])
  else
    -- Step 3: pre-flight test
    match (if !no_tests && config.testing.enabled
           then some (env.run_tests 0) else none) with
    | some (.error e) =>
      -- run_tests raised TestError: propagates (not caught by the except clause)
      (.error (.testError e), [.run_tests])
    | some (.ok pre_test_result) =>
      if !pre_test_result.success then
        (.error (.updateError ("Pre-flight tests failed: " ++
          toString pre_test_result.failed ++ " test(s) failed")), [.run_tests])
      else
        _session_after_preflight env sched config dry_run no_backup
          no_tests ignore_packages allow_only_packages parallel
          { session with pre_test_passed := pre_test_result.success }
          [.run_tests] 1
    | none =>
      _session_after_preflight env sched config dry_run no_backup
        no_tests ignore_packages allow_only_packages parallel session [] 0

/-! ## Theorems: version-policy gate (C4, C5, C6) -/

/-- C5: for every pair of valid versions where the target is `<=` the
current version under the standard version ordering, `is_breaking_change`
returns `False` for every policy name, including unrecognized ones. -/
theorem is_breaking_change_not_upgrade (current new : PyVersion)
    (version_policy : String) (h : pyVersionLe new current = true) :
    is_breaking_change current new version_policy = .ok false := by
  unfold is_breaking_change
  simp [h]

/-- Witness for `is_breaking_change_not_upgrade`: `1.0.0 <= 1.0.0`, policy
`"patch"`. -/
theorem is_breaking_change_not_upgrade_witness :
    pyVersionLe ⟨0, [1, 0, 0], none, none, none, []⟩
        ⟨0, [1, 0, 0], none, none, none, []⟩ = true ∧
    is_breaking_change ⟨0, [1, 0, 0], none, none, none, []⟩
        ⟨0, [1, 0, 0], none, none, none, []⟩ "patch" = .ok false :=
  ⟨by decide,
   is_breaking_change_not_upgrade _ _ "patch" (by decide)⟩

/-- C6: for every pair of valid versions, policy `"safe"` gives the same
answer as policy `"minor"` (a deliberate alias in the source). -/
theorem is_breaking_change_safe_eq_minor (current new : PyVersion) :
    is_breaking_change current new "safe" =
      is_breaking_change current new "minor" := by
  unfold is_breaking_change
  cases h : pyVersionLe new current <;> simp

/-- C4, evaluation at the failing input: with `current_version = "1"` and
`new_version = "1.post1"` (both accepted by `validate_version`, and
`1 < 1.post1` so this is a genuine upgrade), policy `"patch"` evaluates
`current_parts[1]` on the 1-element padded tuple `(1,)` and raises
`IndexError("tuple index out of range")` instead of returning a boolean. -/
theorem is_breaking_change_patch_index_error :
    is_breaking_change ⟨0, [1], none, none, none, []⟩
        ⟨0, [1], none, some 1, none, []⟩ "patch" =
      .error "tuple index out of range" := by decide

/-! ## Theorems: session success (C1) -/

/-- The summary dict, read at any key, counts the results whose status
string equals that key. -/
theorem summary_apply (results : List UpdateResult) (acc : String → Nat)
    (key : String) :
    results.foldl
        (fun stats r => fun k => if k == r.status.value then stats k + 1 else stats k)
        acc key
      = acc key + results.countP (fun r => key == r.status.value) := by
  induction results generalizing acc with
  | nil => simp
  | cons r rest ih =>
    simp only [List.foldl_cons, List.countP_cons, ih]
    by_cases h : key == r.status.value
    · simp [h]
      omega
    · simp [h]

/-- Matching the status string `"critical_failure"` is the same as matching
the `CRITICAL_FAILURE` member. -/
theorem critical_key_eq (r : UpdateResult) :
    ("critical_failure" == r.status.value) =
      (r.status == UpdateStatus.CRITICAL_FAILURE) := by
  cases h : r.status <;> simp [UpdateStatus.value, h]

/-- C1: a session's derived `success` flag is true iff the number of results
with status `critical_failure` is zero; and appending any results whose
status is not `critical_failure` (in particular `failed_install`,
`rolled_back` or `skipped` results, in any number) never changes `success`. -/
theorem session_success_iff_no_critical (s : UpdateSession) :
    (s.success = true ↔
      s.results.countP (fun r => r.status == UpdateStatus.CRITICAL_FAILURE) = 0) ∧
    (∀ extra : List UpdateResult,
      (∀ r ∈ extra, r.status ≠ UpdateStatus.CRITICAL_FAILURE) →
      UpdateSession.success { s with results := s.results ++ extra } = s.success) := by
  have hsum : ∀ (l : List UpdateResult),
      (UpdateSession.summary { s with results := l }) "critical_failure" =
        l.countP (fun r => r.status == UpdateStatus.CRITICAL_FAILURE) := by
    intro l
    have := summary_apply l (fun _ => 0) "critical_failure"
    simp only [UpdateSession.summary] at *
    rw [this]
    simp only [Nat.zero_add]
    congr 1
    funext r
    exact critical_key_eq r
  have hs : (UpdateSession.summary s) "critical_failure" =
      s.results.countP (fun r => r.status == UpdateStatus.CRITICAL_FAILURE) :=
    hsum s.results
  constructor
  · simp [UpdateSession.success, hs]
  · intro extra hextra
    have hz : extra.countP (fun r => r.status == UpdateStatus.CRITICAL_FAILURE) = 0 := by
      rw [List.countP_eq_zero]
      intro r hr
      simpa using hextra r hr
    simp only [UpdateSession.success]
    rw [hsum (s.results ++ extra), hs, List.countP_append, hz, Nat.add_zero]

/-- Witness for `session_success_iff_no_critical`: a session with one
`rolled_back`, one `failed_install` and one `skipped` result is successful,
and appending a further `failed_install` result keeps it successful. -/
theorem session_success_iff_no_critical_witness :
    letI p : PackageInfo :=
      { name := "requests"
        current_version := ⟨0, [2, 25, 0], none, none, none, []⟩
        latest_version := ⟨0, [2, 31, 0], none, none, none, []⟩ }
    letI s : UpdateSession :=
      { results := [{ package := p, status := .ROLLED_BACK },
                    { package := p, status := .FAILED_INSTALL },
                    { package := p, status := .SKIPPED }] }
    (s.success = true ↔
      s.results.countP (fun r => r.status == UpdateStatus.CRITICAL_FAILURE) = 0) ∧
    (∀ extra : List UpdateResult,
      (∀ r ∈ extra, r.status ≠ UpdateStatus.CRITICAL_FAILURE) →
      UpdateSession.success { s with results := s.results ++ extra } = s.success) :=
  session_success_iff_no_critical _

/-! ## Theorems: package selection (C7) -/

/-- The selection predicate exactly as the specification states it: keep a
package iff its name is not in the config-ignore list, not in the
invocation-ignore list, is in the config-allow list whenever that list is
present and non-empty, and is in the invocation-allow list whenever that
list is present and non-empty. -/
def keepSpec (config_ignore : List String)
    (config_allow cli_ignore cli_allow : Option (List String))
    (pkg : PkgData) : Bool :=
  !(config_ignore.contains pkg.name)
  && !((cli_ignore.getD []).contains pkg.name)
  && (match config_allow with
      | some (x :: xs) => (x :: xs).contains pkg.name
      | _ => true)
  && (match cli_allow with
      | some (x :: xs) => (x :: xs).contains pkg.name
      | _ => true)

/-- Python's `if lst and name in lst` is just membership. -/
theorem truthy_contains (l : List String) (x : String) :
    (!l.isEmpty && l.contains x) = l.contains x := by
  cases l <;> simp

/-- The optional ignore-list gate is membership in `getD []`. -/
theorem opt_ignore_gate (o : Option (List String)) (x : String) :
    (match o with
     | none => false
     | some l => !l.isEmpty && l.contains x) = (o.getD []).contains x := by
  cases o with
  | none => simp
  | some l => simpa using truthy_contains l x

/-- The optional allow-list gate drops exactly when the spec predicate's
allow conjunct is false. -/
theorem opt_allow_gate (o : Option (List String)) (x : String) :
    (match o with
     | none => false
     | some l => !l.isEmpty && !l.contains x)
    = !(match o with
        | some (y :: ys) => (y :: ys).contains x
        | _ => true) := by
  cases o with
  | none => simp
  | some l => cases l <;> simp

/-- C7: `_filter_packages` is exactly `List.filter` with the specification's
predicate — a package survives iff it passes all four gates, a package
dropped by a gate is absent from the output entirely, and the survivors keep
their input order. -/
theorem filter_packages_eq_filter_keepSpec (packages : List PkgData)
    (config_ignore : List String)
    (config_allow cli_ignore cli_allow : Option (List String)) :
    _filter_packages packages config_ignore config_allow cli_ignore cli_allow
      = packages.filter (keepSpec config_ignore config_allow cli_ignore cli_allow) := by
  induction packages with
  | nil => rfl
  | cons pkg rest ih =>
    simp only [_filter_packages, List.filter_cons, ih]
    rw [truthy_contains, opt_ignore_gate, opt_allow_gate, opt_allow_gate]
    simp only [keepSpec, Bool.and_eq_true, Bool.not_eq_true']
    split_ifs <;> simp_all

/-! ## Worker path lemmas and the pending-status invariant (C10) -/

/-- Every return path of the worker carries the package it was given. -/
theorem update_package_package (env : Env) (tIdx : Nat)
    (package : PackageInfo) (config : Config) (dry_run no_tests : Bool) :
    (_update_package env tIdx package config dry_run no_tests).1.package
      = package := by
  simp only [_update_package]
  repeat' split
  all_goals simp_all

/-- Every return path of the worker overwrites the initial `PENDING`. -/
theorem update_package_status_ne_pending (env : Env) (tIdx : Nat)
    (package : PackageInfo) (config : Config) (dry_run no_tests : Bool) :
    (_update_package env tIdx package config dry_run no_tests).1.status
      ≠ UpdateStatus.PENDING := by
  simp only [_update_package]
  repeat' split
  all_goals simp_all

/-- C10: every `UpdateResult` returned by the per-package worker, and every
`UpdateResult` collected by the parallel scheduler (including the ones it
synthesizes for crashed tasks), carries a status other than `pending`. -/
theorem no_pending_in_results :
    (∀ (env : Env) (tIdx : Nat) (package : PackageInfo) (config : Config)
        (dry_run no_tests : Bool),
      (_update_package env tIdx package config dry_run no_tests).1.status
        ≠ UpdateStatus.PENDING) ∧
    (∀ (env : Env) (tIdx : Nat) (crash : PkgData → Option String)
        (completed : List PkgData) (config : Config) (dry_run no_tests : Bool),
      ∀ r ∈ (_update_packages_parallel env tIdx crash completed config
              dry_run no_tests).1,
        r.status ≠ UpdateStatus.PENDING) := by
  refine ⟨update_package_status_ne_pending, ?_⟩
  intro env tIdx crash completed config dry_run no_tests
  induction completed generalizing tIdx with
  | nil => intro r hr; simp [_update_packages_parallel] at hr
  | cons pkg rest ih =>
    intro r hr
    simp only [_update_packages_parallel] at hr
    cases hc : crash pkg with
    | some e =>
      rw [hc] at hr
      simp only [List.mem_cons] at hr
      rcases hr with rfl | hr
      · simp
      · exact ih _ r hr
    | none =>
      rw [hc] at hr
      simp only [List.mem_cons] at hr
      rcases hr with rfl | hr
      · exact update_package_status_ne_pending env tIdx (toPackageInfo pkg)
          config dry_run no_tests
      · exact ih _ r hr

/-- Witness for `no_pending_in_results`: a concrete crashed task yields a
`failed_install` (not `pending`) result. -/
theorem no_pending_in_results_witness :
    letI env : Env :=
      { install := fun _ _ _ => .ok ()
        uninstall := fun _ => .ok ()
        run_tests := fun _ => .ok { success := true }
        create_backup := .ok "backup.json"
        outdated := .ok []
        in_virtualenv := true
        elevated_privileges := false }
    letI pkg : PkgData :=
      { name := "requests"
        version := ⟨0, [2, 25, 0], none, none, none, []⟩
        latest_version := ⟨0, [2, 31, 0], none, none, none, []⟩ }
    ∀ r ∈ (_update_packages_parallel env 0 (fun _ => some "boom") [pkg] {}
            false false).1,
      r.status ≠ UpdateStatus.PENDING :=
  fun r hr =>
    no_pending_in_results.2 _ 0 (fun _ => some "boom") _ {} false false r hr

/-! ## Theorems: rollback invariant (C2) -/

/-- C2: whenever the install of the target version succeeds and the
subsequent test run returns `success = false`, the worker calls
`uninstall(target package)` and then `install(original version)`, in that
order (visible in the recorded call trace); if both recovery calls succeed
the result is `rolled_back`, and if either recovery call raises the result
is `critical_failure` with the recovery error recorded in `error_message`. -/
theorem worker_rollback_invariant (env : Env) (tIdx : Nat)
    (package : PackageInfo) (config : Config)
    (hgate : is_breaking_change package.current_version package.latest_version
      config.updates.version_policy = .ok false)
    (henabled : config.testing.enabled = true)
    (hinstall : env.install package.name package.latest_version
      config.security.verify_hashes = .ok ())
    (tr : TestResult)
    (hrun : env.run_tests tIdx = .ok tr)
    (hfail : tr.success = false) :
    (env.uninstall package.name = .ok () →
      env.install package.name package.current_version false = .ok () →
      (_update_package env tIdx package config false false).1.status
          = UpdateStatus.ROLLED_BACK ∧
      (_update_package env tIdx package config false false).2 =
        [.install package.name package.latest_version config.security.verify_hashes,
         .run_tests, .uninstall package.name,
         .install package.name package.current_version false]) ∧
    (∀ e, env.uninstall package.name = .ok () →
      env.install package.name package.current_version false = .error e →
      (_update_package env tIdx package config false false).1.status
          = UpdateStatus.CRITICAL_FAILURE ∧
      (_update_package env tIdx package config false false).1.error_message = some e ∧
      (_update_package env tIdx package config false false).2 =
        [.install package.name package.latest_version config.security.verify_hashes,
         .run_tests, .uninstall package.name,
         .install package.name package.current_version false]) ∧
    (∀ e, env.uninstall package.name = .error e →
      (_update_package env tIdx package config false false).1.status
          = UpdateStatus.CRITICAL_FAILURE ∧
      (_update_package env tIdx package config false false).1.error_message = some e ∧
      (_update_package env tIdx package config false false).2 =
        [.install package.name package.latest_version config.security.verify_hashes,
         .run_tests, .uninstall package.name]) := by
  refine ⟨?_, ?_, ?_⟩
  · intro hu hio
    simp [_update_package, hgate, henabled, hinstall, hrun, hfail, hu, hio]
  · intro e hu hio
    simp [_update_package, hgate, henabled, hinstall, hrun, hfail, hu, hio]
  · intro e hu
    simp [_update_package, hgate, henabled, hinstall, hrun, hfail, hu]

/-- Concrete fixture for the rollback witness: install of the target and of
the original version succeed, uninstall succeeds, and the (single) test
invocation consumed by the worker fails. -/
def envRollback : Env :=
  { install := fun _ _ _ => .ok ()
    uninstall := fun _ => .ok ()
    run_tests := fun _ => .ok { success := false, exit_code := 1, output := "1 failed" }
    create_backup := .ok "backup.json"
    outdated := .ok []
    in_virtualenv := true
    elevated_privileges := false }

/-- Concrete package fixture: requests 2.25.0 → 2.31.0. -/
def pkgRequests : PackageInfo :=
  { name := "requests"
    current_version := ⟨0, [2, 25, 0], none, none, none, []⟩
    latest_version := ⟨0, [2, 31, 0], none, none, none, []⟩ }

/-- Witness for `worker_rollback_invariant` at the concrete fixture. -/
theorem worker_rollback_invariant_witness :
    (envRollback.uninstall pkgRequests.name = .ok () →
      envRollback.install pkgRequests.name pkgRequests.current_version false = .ok () →
      (_update_package envRollback 0 pkgRequests {} false false).1.status
          = UpdateStatus.ROLLED_BACK ∧
      (_update_package envRollback 0 pkgRequests {} false false).2 =
        [.install pkgRequests.name pkgRequests.latest_version
           (Config.security {}).verify_hashes,
         .run_tests, .uninstall pkgRequests.name,
         .install pkgRequests.name pkgRequests.current_version false]) ∧
    (∀ e, envRollback.uninstall pkgRequests.name = .ok () →
      envRollback.install pkgRequests.name pkgRequests.current_version false = .error e →
      (_update_package envRollback 0 pkgRequests {} false false).1.status
          = UpdateStatus.CRITICAL_FAILURE ∧
      (_update_package envRollback 0 pkgRequests {} false false).1.error_message = some e ∧
      (_update_package envRollback 0 pkgRequests {} false false).2 =
        [.install pkgRequests.name pkgRequests.latest_version
           (Config.security {}).verify_hashes,
         .run_tests, .uninstall pkgRequests.name,
         .install pkgRequests.name pkgRequests.current_version false]) ∧
    (∀ e, envRollback.uninstall pkgRequests.name = .error e →
      (_update_package envRollback 0 pkgRequests {} false false).1.status
          = UpdateStatus.CRITICAL_FAILURE ∧
      (_update_package envRollback 0 pkgRequests {} false false).1.error_message = some e ∧
      (_update_package envRollback 0 pkgRequests {} false false).2 =
        [.install pkgRequests.name pkgRequests.latest_version
           (Config.security {}).verify_hashes,
         .run_tests, .uninstall pkgRequests.name]) :=
  worker_rollback_invariant envRollback 0 pkgRequests {} (by decide) rfl rfl
    { success := false, exit_code := 1, output := "1 failed" } rfl rfl

/-! ## Theorems: parallel scheduler (C8) -/

/-- The parallel collection loop produces results whose packages are exactly
the completed packages, in completion order (crashed tasks included, through
the synthesized failure result). -/
theorem parallel_results_map_package (env : Env) (tIdx : Nat)
    (crash : PkgData → Option String) (completed : List PkgData)
    (config : Config) (dry_run no_tests : Bool) :
    (_update_packages_parallel env tIdx crash completed config dry_run
        no_tests).1.map (fun r => r.package)
      = completed.map toPackageInfo := by
  induction completed generalizing tIdx with
  | nil => simp [_update_packages_parallel]
  | cons pkg rest ih =>
    simp only [_update_packages_parallel]
    cases hc : crash pkg with
    | some e => simp [ih]
    | none => simp [ih, update_package_package]

/-- A crashed task still contributes a synthesized `failed_install` result
carrying the exception message. -/
theorem parallel_crash_result (env : Env) (tIdx : Nat)
    (crash : PkgData → Option String) (completed : List PkgData)
    (config : Config) (dry_run no_tests : Bool) (pkg : PkgData)
    (hmem : pkg ∈ completed) (e : String) (hc : crash pkg = some e) :
    ∃ r ∈ (_update_packages_parallel env tIdx crash completed config dry_run
        no_tests).1,
      r.package = toPackageInfo pkg ∧ r.status = UpdateStatus.FAILED_INSTALL ∧
      r.error_message = some e := by
  induction completed generalizing tIdx with
  | nil => cases hmem
  | cons q rest ih =>
    rcases List.mem_cons.mp hmem with rfl | hmem'
    · refine ⟨{ package := toPackageInfo pkg
                status := .FAILED_INSTALL
                error_message := some e }, ?_, rfl, rfl, rfl⟩
      simp [_update_packages_parallel, hc]
    · cases hcq : crash q with
      | some e2 =>
        obtain ⟨r, hr, hprops⟩ := ih tIdx hmem'
        exact ⟨r, by simp [_update_packages_parallel, hcq, List.mem_cons, hr], hprops⟩
      | none =>
        obtain ⟨r, hr, hprops⟩ := ih
          (tIdx + ((_update_package env tIdx (toPackageInfo q) config dry_run
            no_tests).2.countP CollabCall.isRunTests)) hmem'
        exact ⟨r, by simp [_update_packages_parallel, hcq, List.mem_cons, hr], hprops⟩

/-- C8: for every submitted package list, in parallel mode and for every
completion order, the scheduler produces exactly one `UpdateResult` per
submitted package — the multiset of result packages equals the multiset of
submitted packages — and any task whose worker raised an escaping exception
yields a synthesized `failed_install` result carrying the exception's
message, so no package lacks a result and no task exception aborts the
collection loop. -/
theorem parallel_one_result_per_package (env : Env) (tIdx : Nat)
    (crash : PkgData → Option String) (completed packages : List PkgData)
    (config : Config) (dry_run no_tests : Bool)
    (hperm : completed.Perm packages) :
    (_update_packages_parallel env tIdx crash completed config dry_run
        no_tests).1.length = packages.length ∧
    ((_update_packages_parallel env tIdx crash completed config dry_run
        no_tests).1.map (fun r => r.package)).Perm
      (packages.map toPackageInfo) ∧
    (∀ pkg e, pkg ∈ packages → crash pkg = some e →
      ∃ r ∈ (_update_packages_parallel env tIdx crash completed config dry_run
          no_tests).1,
        r.package = toPackageInfo pkg ∧ r.status = UpdateStatus.FAILED_INSTALL ∧
        r.error_message = some e) := by
  have hmap := parallel_results_map_package env tIdx crash completed config
    dry_run no_tests
  refine ⟨?_, ?_, ?_⟩
  · have h1 : (_update_packages_parallel env tIdx crash completed config dry_run
        no_tests).1.length = completed.length := by
      have := congrArg List.length hmap
      simpa using this
    rw [h1, hperm.length_eq]
  · rw [hmap]
    exact hperm.map toPackageInfo
  · intro pkg e hpkg hc
    exact parallel_crash_result env tIdx crash completed config dry_run no_tests
      pkg (hperm.mem_iff.mpr hpkg) e hc

/-- Second package fixture for the parallel witness. -/
def pkgDataReq : PkgData :=
  { name := "requests"
    version := ⟨0, [2, 25, 0], none, none, none, []⟩
    latest_version := ⟨0, [2, 31, 0], none, none, none, []⟩ }

/-- First package fixture for the parallel witness. -/
def pkgDataNumpy : PkgData :=
  { name := "numpy"
    version := ⟨0, [1, 24, 0], none, none, none, []⟩
    latest_version := ⟨0, [1, 26, 0], none, none, none, []⟩ }

/-- The crash oracle of the parallel witness: the numpy task raises. -/
def crashNumpy : PkgData → Option String :=
  fun p => if p.name == "numpy" then some "worker thread died" else none

/-- Witness for `parallel_one_result_per_package`: two packages completing
in reversed order, the numpy task crashing. -/
theorem parallel_one_result_per_package_witness :
    (_update_packages_parallel envRollback 0 crashNumpy
        [pkgDataNumpy, pkgDataReq] {} false false).1.length
      = [pkgDataReq, pkgDataNumpy].length ∧
    ((_update_packages_parallel envRollback 0 crashNumpy
        [pkgDataNumpy, pkgDataReq] {} false false).1.map
      (fun r => r.package)).Perm ([pkgDataReq, pkgDataNumpy].map toPackageInfo) ∧
    (∀ pkg e, pkg ∈ [pkgDataReq, pkgDataNumpy] → crashNumpy pkg = some e →
      ∃ r ∈ (_update_packages_parallel envRollback 0 crashNumpy
          [pkgDataNumpy, pkgDataReq] {} false false).1,
        r.package = toPackageInfo pkg ∧ r.status = UpdateStatus.FAILED_INSTALL ∧
        r.error_message = some e) :=
  parallel_one_result_per_package envRollback 0 crashNumpy
    [pkgDataNumpy, pkgDataReq] [pkgDataReq, pkgDataNumpy] {} false false
    (List.Perm.swap pkgDataReq pkgDataNumpy [])

/-! ## Theorems: dry-run invariant (C3) -/

/-- In dry-run mode the worker makes no collaborator calls, and its result
is determined by the policy gate alone: breaking → `skipped`, non-breaking →
`updated`, gate evaluation error → `failed_install` (the policy check runs
before the dry-run check). -/
theorem update_package_dry_run (env : Env) (tIdx : Nat)
    (package : PackageInfo) (config : Config) (no_tests : Bool) :
    _update_package env tIdx package config true no_tests =
      (match is_breaking_change package.current_version package.latest_version
          config.updates.version_policy with
       | .error e => { package := package, status := .FAILED_INSTALL,
                       error_message := some e }
       | .ok true => { package := package, status := .SKIPPED }
       | .ok false => { package := package, status := .UPDATED }, []) := by
  cases hbc : is_breaking_change package.current_version package.latest_version
      config.updates.version_policy with
  | error e => simp [_update_package, hbc]
  | ok b => cases b <;> simp [_update_package, hbc]

/-- The worker's dry-run result for an outdated-package entry, in the
gate-determined form established by `update_package_dry_run`. -/
def dryRunResult (config : Config) (pkg : PkgData) : UpdateResult :=
  match is_breaking_change pkg.version pkg.latest_version
      config.updates.version_policy with
  | .error e => { package := toPackageInfo pkg, status := .FAILED_INSTALL,
                  error_message := some e }
  | .ok true => { package := toPackageInfo pkg, status := .SKIPPED }
  | .ok false => { package := toPackageInfo pkg, status := .UPDATED }

/-- The sequential scheduler in dry-run mode: no collaborator calls, one
gate-determined result per package in input order. -/
theorem sequential_dry_run (env : Env) (tIdx : Nat) (packages : List PkgData)
    (config : Config) (no_tests : Bool) :
    _update_packages_sequential env tIdx packages config true no_tests =
      (packages.map (dryRunResult config), []) := by
  induction packages generalizing tIdx with
  | nil => rfl
  | cons pkg rest ih =>
    simp only [_update_packages_sequential, update_package_dry_run, List.map_cons]
    cases hbc : is_breaking_change pkg.version pkg.latest_version
        config.updates.version_policy with
    | error e => simp [dryRunResult, toPackageInfo, hbc, ih]
    | ok b => cases b <;> simp [dryRunResult, toPackageInfo, hbc, ih]

/-- The parallel scheduler in dry-run mode, when no task crashes: no
collaborator calls, one gate-determined result per completed package. -/
theorem parallel_dry_run (env : Env) (tIdx : Nat)
    (crash : PkgData → Option String) (completed : List PkgData)
    (config : Config) (no_tests : Bool) (hcrash : ∀ p, crash p = none) :
    _update_packages_parallel env tIdx crash completed config true no_tests =
      (completed.map (dryRunResult config), []) := by
  induction completed generalizing tIdx with
  | nil => rfl
  | cons pkg rest ih =>
    simp only [_update_packages_parallel, hcrash pkg, update_package_dry_run,
      List.map_cons]
    cases hbc : is_breaking_change pkg.version pkg.latest_version
        config.updates.version_policy with
    | error e => simp [dryRunResult, toPackageInfo, hbc, ih]
    | ok b => cases b <;> simp [dryRunResult, toPackageInfo, hbc, ih]

/-- Results of a dry-run scheduler map satisfy the gate-determined status
formula. -/
theorem dry_map_status (config : Config) (l : List PkgData) :
    ∀ r ∈ l.map (dryRunResult config),
      r.status = (match is_breaking_change r.package.current_version
          r.package.latest_version config.updates.version_policy with
        | .ok true => UpdateStatus.SKIPPED
        | .ok false => UpdateStatus.UPDATED
        | .error _ => UpdateStatus.FAILED_INSTALL) := by
  intro r hr
  rcases List.mem_map.mp hr with ⟨pkg, _, rfl⟩
  cases hbc : is_breaking_change pkg.version pkg.latest_version
      config.updates.version_policy with
  | error e => simp [dryRunResult, toPackageInfo, hbc]
  | ok b => cases b <;> simp [dryRunResult, toPackageInfo, hbc]

/-- The packages of a dry-run scheduler map are the input packages. -/
theorem dry_map_package (config : Config) (l : List PkgData) :
    (l.map (dryRunResult config)).map (fun r => r.package)
      = l.map toPackageInfo := by
  rw [List.map_map]
  apply List.map_congr_left
  intro pkg _
  cases hbc : is_breaking_change pkg.version pkg.latest_version
      config.updates.version_policy with
  | error e => simp [dryRunResult, Function.comp, hbc]
  | ok b => cases b <;> simp [dryRunResult, Function.comp, hbc]

/-- Steps 4–7 in dry-run mode: the trace is unchanged (no backup, no install,
no uninstall, no test run), and when the run returns a session its appended
results are gate-determined, one per filtered package up to the parallel
completion order. -/
theorem session_after_preflight_dry_run (env : Env) (sched : Scheduler)
    (config : Config) (no_backup no_tests : Bool)
    (ig al : Option (List String)) (parallel : Bool)
    (session : UpdateSession) (calls : List CollabCall) (tIdx : Nat)
    (hcrash : ∀ p, sched.crash p = none)
    (hcomp : ∀ l : List PkgData, (sched.complete l).Perm l) :
    (_session_after_preflight env sched config true no_backup no_tests ig al
        parallel session calls tIdx).2 = calls ∧
    (∀ s', (_session_after_preflight env sched config true no_backup no_tests
        ig al parallel session calls tIdx).1 = .ok s' →
      ∃ results',
        s'.results = session.results ++ results' ∧
        (∀ r ∈ results',
          r.status = (match is_breaking_change r.package.current_version
              r.package.latest_version config.updates.version_policy with
            | .ok true => UpdateStatus.SKIPPED
            | .ok false => UpdateStatus.UPDATED
            | .error _ => UpdateStatus.FAILED_INSTALL)) ∧
        (∀ pkgs, env.outdated = .ok pkgs →
          (results'.map (fun r => r.package)).Perm
            ((_filter_packages pkgs config.updates.ignore_packages
              config.updates.allow_only_packages ig al).map toPackageInfo))) := by
  cases ho : env.outdated with
  | error e =>
    constructor
    · simp [_session_after_preflight, ho]
    · intro s' hs'
      simp [_session_after_preflight, ho] at hs'
  | ok pkgs =>
    by_cases hemp : pkgs.isEmpty
    · have hpkgs : pkgs = [] := List.isEmpty_iff.mp hemp
      subst hpkgs
      constructor
      · simp [_session_after_preflight, ho]
      · intro s' hs'
        simp [_session_after_preflight, ho] at hs'
        refine ⟨[], by simp [← hs'], by simp, ?_⟩
        intro pkgs' hpkgs'
        injection hpkgs' with hpe
        subst hpe
        simp [_filter_packages]
    · by_cases hfemp : (_filter_packages pkgs config.updates.ignore_packages
          config.updates.allow_only_packages ig al).isEmpty
      · have hf : _filter_packages pkgs config.updates.ignore_packages
            config.updates.allow_only_packages ig al = [] :=
          List.isEmpty_iff.mp hfemp
        constructor
        · simp [_session_after_preflight, ho, hemp, hfemp, hf]
        · intro s' hs'
          simp [_session_after_preflight, ho, hemp, hfemp, hf] at hs'
          refine ⟨[], by simp [← hs'], by simp, ?_⟩
          intro pkgs' hpkgs'
          injection hpkgs' with hpe
          subst hpe
          simp [hf]
      · cases hpar : parallel with
        | false =>
          constructor
          · simp [_session_after_preflight, ho, hemp, hfemp, sequential_dry_run]
          · intro s' hs'
            simp [_session_after_preflight, ho, hemp, hfemp,
              sequential_dry_run] at hs'
            refine ⟨(_filter_packages pkgs config.updates.ignore_packages
                config.updates.allow_only_packages ig al).map
                  (dryRunResult config),
              ?_, dry_map_status config _, ?_⟩
            · rw [← hs']
            · intro pkgs' hpkgs'
              injection hpkgs' with hpe
              subst hpe
              rw [dry_map_package]
        | true =>
          constructor
          · simp [_session_after_preflight, ho, hemp, hfemp,
              parallel_dry_run env tIdx sched.crash _ config no_tests hcrash]
          · intro s' hs'
            simp [_session_after_preflight, ho, hemp, hfemp,
              parallel_dry_run env tIdx sched.crash _ config no_tests hcrash] at hs'
            refine ⟨(sched.complete (_filter_packages pkgs
                config.updates.ignore_packages config.updates.allow_only_packages
                ig al)).map (dryRunResult config),
              ?_, dry_map_status config _, ?_⟩
            · rw [← hs']
            · intro pkgs' hpkgs'
              injection hpkgs' with hpe
              subst hpe
              rw [dry_map_package]
              exact (hcomp _).map toPackageInfo

/-- Assembling the session-level dry-run conclusions from the
post-preflight lemma. -/
theorem assemble_dry_run (env : Env) (sched : Scheduler) (config : Config)
    (no_backup no_tests : Bool) (ig al : Option (List String))
    (parallel : Bool) (session : UpdateSession) (calls : List CollabCall)
    (tIdx : Nat) (hsession : session.results = [])
    (hcallsOK : ∀ c ∈ calls, c = CollabCall.run_tests)
    (hlen : calls.length ≤ 1) (hcrash : ∀ p, sched.crash p = none)
    (hcomp : ∀ l : List PkgData, (sched.complete l).Perm l) :
    (∀ c ∈ (_session_after_preflight env sched config true no_backup no_tests
        ig al parallel session calls tIdx).2, c = CollabCall.run_tests) ∧
    (_session_after_preflight env sched config true no_backup no_tests ig al
        parallel session calls tIdx).2.length ≤ 1 ∧
    (∀ s', (_session_after_preflight env sched config true no_backup no_tests
        ig al parallel session calls tIdx).1 = .ok s' →
      (∀ r ∈ s'.results,
        r.status = (match is_breaking_change r.package.current_version
            r.package.latest_version config.updates.version_policy with
          | .ok true => UpdateStatus.SKIPPED
          | .ok false => UpdateStatus.UPDATED
          | .error _ => UpdateStatus.FAILED_INSTALL)) ∧
      (∀ pkgs, env.outdated = .ok pkgs →
        (s'.results.map (fun r => r.package)).Perm
          ((_filter_packages pkgs config.updates.ignore_packages
            config.updates.allow_only_packages ig al).map toPackageInfo))) := by
  obtain ⟨hc, hok⟩ := session_after_preflight_dry_run env sched config
    no_backup no_tests ig al parallel session calls tIdx hcrash hcomp
  refine ⟨?_, ?_, ?_⟩
  · intro c hmem
    rw [hc] at hmem
    exact hcallsOK c hmem
  · rw [hc]
    exact hlen
  · intro s' hs'
    obtain ⟨results', hres, hstat, hperm'⟩ := hok s' hs'
    rw [hsession, List.nil_append] at hres
    constructor
    · intro r hr
      rw [hres] at hr
      exact hstat r hr
    · intro pkgs hp
      rw [hres]
      exact hperm' pkgs hp

/-- C3 (amended): with dry-run set, a session makes no install or uninstall
collaborator call at all, and the only possible test-run call is the single
pre-flight run (when testing is enabled and not suppressed); whenever the
run returns a session, each result's status is determined by the policy gate
alone — `skipped` when the gate deems the jump breaking, `updated` when it
does not, `failed_install` when the gate evaluation itself raised — and the
results correspond one-to-one to the filtered package list.  (Scheduler-level
task crashes, which model exceptions outside the embedded code, are excluded
by `hcrash`; `hcomp` says the completion order is a permutation.) -/
theorem dry_run_no_mutating_calls (env : Env) (sched : Scheduler)
    (config : Config) (no_backup no_tests : Bool)
    (ig al : Option (List String)) (parallel : Bool)
    (hcrash : ∀ p, sched.crash p = none)
    (hcomp : ∀ l : List PkgData, (sched.complete l).Perm l) :
    (∀ c ∈ (run_update_session env sched config true no_backup no_tests ig al
        parallel).2, c = CollabCall.run_tests) ∧
    (run_update_session env sched config true no_backup no_tests ig al
        parallel).2.length ≤ 1 ∧
    (∀ s', (run_update_session env sched config true no_backup no_tests ig al
        parallel).1 = .ok s' →
      (∀ r ∈ s'.results,
        r.status = (match is_breaking_change r.package.current_version
            r.package.latest_version config.updates.version_policy with
          | .ok true => UpdateStatus.SKIPPED
          | .ok false => UpdateStatus.UPDATED
          | .error _ => UpdateStatus.FAILED_INSTALL)) ∧
      (∀ pkgs, env.outdated = .ok pkgs →
        (s'.results.map (fun r => r.package)).Perm
          ((_filter_packages pkgs config.updates.ignore_packages
            config.updates.allow_only_packages ig al).map toPackageInfo))) := by
  unfold run_update_session
  by_cases h1 : (config.security.require_virtualenv && !env.in_virtualenv) = true
  · simp [h1]
  · by_cases h2 : env.elevated_privileges = true
    · simp [h1, h2]
    · by_cases h3 : (!no_tests && config.testing.enabled) = true
      · simp only [h1, h2, h3, Bool.false_eq_true, if_false, if_true]
        cases hrt : env.run_tests 0 with
        | error e => simp
        | ok tr =>
          by_cases hsucc : tr.success = true
          · simp only [hsucc, Bool.not_true, Bool.false_eq_true, if_false]
            exact assemble_dry_run env sched config no_backup no_tests ig al
              parallel _ [CollabCall.run_tests] 1 rfl (by simp) (by simp)
              hcrash hcomp
          · simp [hsucc]
      · simp only [h1, h2, h3, Bool.false_eq_true, if_false]
        exact assemble_dry_run env sched config no_backup no_tests ig al
          parallel _ [] 0 rfl (by simp) (by simp) hcrash hcomp

/-- Environment fixture for the dry-run counterexample and witness: security
checks pass, the test runner reports success, one outdated package. -/
def envDryRun : Env :=
  { install := fun _ _ _ => .ok ()
    uninstall := fun _ => .ok ()
    run_tests := fun _ => .ok { success := true }
    create_backup := .ok "backup.json"
    outdated := .ok [pkgDataReq]
    in_virtualenv := true
    elevated_privileges := false }

/-- C3, counterexample to the claim as stated: with dry-run set, testing
enabled and tests not suppressed, the session still makes one call to the
test-run collaborator (the pre-flight run of step 3 is not guarded by
dry-run), so the call trace is not empty. -/
theorem dry_run_still_calls_test_runner :
    (run_update_session envDryRun {} {} true false false none none false).2
      = [CollabCall.run_tests] ∧
    (run_update_session envDryRun {} {} true false false none none false).2
      ≠ [] := by
  constructor <;> decide

/-- Witness for `dry_run_no_mutating_calls` at the concrete fixture. -/
theorem dry_run_no_mutating_calls_witness :
    (∀ c ∈ (run_update_session envDryRun {} {} true false false none none
        false).2, c = CollabCall.run_tests) ∧
    (run_update_session envDryRun {} {} true false false none none
        false).2.length ≤ 1 ∧
    (∀ s', (run_update_session envDryRun {} {} true false false none none
        false).1 = .ok s' →
      (∀ r ∈ s'.results,
        r.status = (match is_breaking_change r.package.current_version
            r.package.latest_version (Config.updates {}).version_policy with
          | .ok true => UpdateStatus.SKIPPED
          | .ok false => UpdateStatus.UPDATED
          | .error _ => UpdateStatus.FAILED_INSTALL)) ∧
      (∀ pkgs, envDryRun.outdated = .ok pkgs →
        (s'.results.map (fun r => r.package)).Perm
          ((_filter_packages pkgs (Config.updates {}).ignore_packages
            (Config.updates {}).allow_only_packages none none).map
              toPackageInfo))) :=
  dry_run_no_mutating_calls envDryRun {} {} false false none none false
    (fun _ => rfl) (fun l => List.Perm.refl l)

/-! ## Theorems: propagation policy (C9) -/

/-- Once the security checks and the pre-flight gate are past, the run
always returns a session — whatever the install / uninstall / per-package
test outcomes are — provided the backup step (when it runs) and the
outdated-package listing succeed. -/
theorem session_after_preflight_ok (env : Env) (sched : Scheduler)
    (config : Config) (dry_run no_backup no_tests : Bool)
    (ig al : Option (List String)) (parallel : Bool)
    (session : UpdateSession) (calls : List CollabCall) (tIdx : Nat)
    (hb : (!no_backup && !dry_run) = true → ∃ f, env.create_backup = .ok f)
    (pkgs : List PkgData) (ho : env.outdated = .ok pkgs) :
    ∃ s', (_session_after_preflight env sched config dry_run no_backup
        no_tests ig al parallel session calls tIdx).1 = .ok s' := by
  unfold _session_after_preflight
  by_cases hcond : (!no_backup && !dry_run) = true
  · obtain ⟨f, hf⟩ := hb hcond
    simp only [hcond, if_true, hf, ho]
    repeat' split
    all_goals exact ⟨_, rfl⟩
  · have hcond' : (!no_backup && !dry_run) = false :=
      Bool.not_eq_true _ ▸ Bool.eq_false_iff.mpr hcond
    simp only [hcond', Bool.false_eq_true, if_false, ho]
    repeat' split
    all_goals exact ⟨_, rfl⟩

/-- C9: session-level aborts propagate as exceptions and are never encoded
as per-package results — a missing virtual environment (when required)
raises a `SecurityError`, elevated privileges raise a `SecurityError`, and a
failing pre-flight test run raises an `UpdateError`, in each case without
returning a session; conversely, once the security checks and the pre-flight
gate pass (and the backup / outdated-listing collaborators succeed), the
run always returns a session, so no failure arising inside a worker
(install failure, policy-validation failure, test-execution failure,
recovery failure) ever propagates as an exception past the scheduler. -/
theorem session_error_propagation (env : Env) (sched : Scheduler)
    (config : Config) (dry_run no_backup no_tests : Bool)
    (ig al : Option (List String)) (parallel : Bool) :
    ((config.security.require_virtualenv && !env.in_virtualenv) = true →
      ∃ m, (run_update_session env sched config dry_run no_backup no_tests
          ig al parallel).1 = .error (SessionError.securityError m)) ∧
    ((config.security.require_virtualenv && !env.in_virtualenv) = false →
      env.elevated_privileges = true →
      ∃ m, (run_update_session env sched config dry_run no_backup no_tests
          ig al parallel).1 = .error (SessionError.securityError m)) ∧
    ((config.security.require_virtualenv && !env.in_virtualenv) = false →
      env.elevated_privileges = false →
      (!no_tests && config.testing.enabled) = true →
      ∀ tr, env.run_tests 0 = .ok tr → tr.success = false →
      ∃ m, (run_update_session env sched config dry_run no_backup no_tests
          ig al parallel).1 = .error (SessionError.updateError m)) ∧
    ((config.security.require_virtualenv && !env.in_virtualenv) = false →
      env.elevated_privileges = false →
      ((!no_tests && config.testing.enabled) = true →
        ∃ tr, env.run_tests 0 = .ok tr ∧ tr.success = true) →
      ((!no_backup && !dry_run) = true → ∃ f, env.create_backup = .ok f) →
      ∀ pkgs, env.outdated = .ok pkgs →
      ∃ s', (run_update_session env sched config dry_run no_backup no_tests
          ig al parallel).1 = .ok s') := by
  refine ⟨?_, ?_, ?_, ?_⟩
  · intro h1
    exact ⟨"Virtual environment is required. " ++
      "Please activate a virtual environment before running Covert.",
      by simp [run_update_session, h1]⟩
  · intro h1 h2
    exact ⟨"Covert cannot run with elevated privileges (root/admin). " ++
      "Please run as a regular user within a virtual environment.",
      by simp [run_update_session, h1, h2]⟩
  · intro h1 h2 h3 tr hrt hfail
    refine ⟨"Pre-flight tests failed: " ++ toString tr.failed ++
      " test(s) failed", ?_⟩
    simp [run_update_session, h1, h2, h3, hrt, hfail]
  · intro h1 h2 hpre hb pkgs ho
    unfold run_update_session
    by_cases h3 : (!no_tests && config.testing.enabled) = true
    · obtain ⟨tr, hrt, hsucc⟩ := hpre h3
      simp only [h1, h2, h3, hrt, hsucc, Bool.false_eq_true, if_false,
        if_true, Bool.not_true]
      exact session_after_preflight_ok env sched config dry_run no_backup
        no_tests ig al parallel _ _ 1 hb pkgs ho
    · have h3' : (!no_tests && config.testing.enabled) = false :=
        Bool.not_eq_true _ ▸ Bool.eq_false_iff.mpr h3
      simp only [h1, h2, h3', Bool.false_eq_true, if_false]
      exact session_after_preflight_ok env sched config dry_run no_backup
        no_tests ig al parallel _ _ 0 hb pkgs ho

/-- Environment fixture for the propagation witness: security checks pass,
tests pass, backup and listing succeed, but the pip collaborator fails every
install/uninstall — the run must still return a session. -/
def envInstallFails : Env :=
  { install := fun _ _ _ => .error "pip install failed"
    uninstall := fun _ => .error "pip uninstall failed"
    run_tests := fun _ => .ok { success := true }
    create_backup := .ok "backup.json"
    outdated := .ok [pkgDataReq]
    in_virtualenv := true
    elevated_privileges := false }

/-- Witness for `session_error_propagation` at the concrete fixture. -/
theorem session_error_propagation_witness :
    (((Config.security {}).require_virtualenv &&
        !envInstallFails.in_virtualenv) = true →
      ∃ m, (run_update_session envInstallFails {} {} false false false none
          none false).1 = .error (SessionError.securityError m)) ∧
    (((Config.security {}).require_virtualenv &&
        !envInstallFails.in_virtualenv) = false →
      envInstallFails.elevated_privileges = true →
      ∃ m, (run_update_session envInstallFails {} {} false false false none
          none false).1 = .error (SessionError.securityError m)) ∧
    (((Config.security {}).require_virtualenv &&
        !envInstallFails.in_virtualenv) = false →
      envInstallFails.elevated_privileges = false →
      (!false && (Config.testing {}).enabled) = true →
      ∀ tr, envInstallFails.run_tests 0 = .ok tr → tr.success = false →
      ∃ m, (run_update_session envInstallFails {} {} false false false none
          none false).1 = .error (SessionError.updateError m)) ∧
    (((Config.security {}).require_virtualenv &&
        !envInstallFails.in_virtualenv) = false →
      envInstallFails.elevated_privileges = false →
      ((!false && (Config.testing {}).enabled) = true →
        ∃ tr, envInstallFails.run_tests 0 = .ok tr ∧ tr.success = true) →
      ((!false && !false) = true → ∃ f, envInstallFails.create_backup = .ok f) →
      ∀ pkgs, envInstallFails.outdated = .ok pkgs →
      ∃ s', (run_update_session envInstallFails {} {} false false false none
          none false).1 = .ok s') :=
  session_error_propagation envInstallFails {} {} false false false none
    none false
